import Mathlib

/-!
# Verification of the Automobile Defect Detection Portal (`app.py`)

Shallow embedding of the detection-result processing and inspection-ledger
logic of `app.py` (Flask portal around a YOLO detector).

Modelling conventions:
* The external detector (`model(image_path, conf=0.05)[0].boxes`) is an
  oracle: its output for the uploaded image is a field of the request.
* Images are width × height pixel grids (BGR triples as `Nat × Nat × Nat`);
  OpenCV drawing calls become explicit draw commands applied to the grid,
  always preserving the dimensions.  Exact OpenCV font metrics and the
  decimal layout of Python `%`-formatting are presentation details external
  to the program text; they are modelled by fixed deterministic functions.
* The SQLite table `detection_history` is a list of records in insertion
  (rowid) order; `INTEGER PRIMARY KEY AUTOINCREMENT` assigns the next id on
  append, and `CURRENT_TIMESTAMP` is an abstract server time (`Nat`,
  second granularity as in SQLite's `YYYY-MM-DD HH:MM:SS` text).
* `ORDER BY timestamp DESC` carries no secondary sort key in the source.
  SQLite evaluates it by scanning the table in ascending rowid order and
  running a stable merge sort, so rows with equal timestamps come out in
  ascending rowid order; `sortByTimestampDesc` is exactly that stable sort.
-/

/-- One raw detector box: class id (`box.cls[0]`), confidence
(`box.conf[0]`), and `box.xyxy[0]` corner coordinates cast to `int`.
Confidence is a rational standing for the detector's float; the code never
checks it. -/
structure Box where
  cls : Nat
  conf : ℚ
  x1 : Int
  y1 : Int
  x2 : Int
  y2 : Int
deriving DecidableEq, Repr

/-- A BGR colour triple, as used by OpenCV. -/
abbrev Color := Nat × Nat × Nat

/-- `DEFECT_COLORS`: the class→colour table of `app.py` (BGR). -/
def DEFECT_COLORS : List (String × Color) :=
  [("dent", (203, 192, 255)),
   ("scratch", (255, 0, 0)),
   ("lamp_broken", (0, 255, 255)),
   ("glass_broken", (128, 0, 128)),
   ("tire_flat", (0, 0, 255))]

/-- `DEFECT_COLORS.get(class_name, (0, 255, 0))`: table lookup with the
fixed green fallback for unknown classes. -/
def colorGet (name : String) : Color :=
  match DEFECT_COLORS.lookup name with
  | some c => c
  | none => (0, 255, 0)

/-- Two-digit zero padding, for the decimal part of a percentage. -/
def pad2 (n : Nat) : String :=
  if n < 10 then "0" ++ toString n else toString n

/-- Model of Python `f"{conf:.2%}"`: the confidence as a percentage with
two decimals.  (Python rounds half-to-even; the rounding mode only affects
the displayed text, never control flow, so `round` is used.) -/
def fmtPct2 (q : ℚ) : String :=
  let n : Int := round (q * 10000)
  toString (n / 100) ++ "." ++ pad2 (n % 100).toNat ++ "%"

/-- Model of Python `f"{conf:.0%}"`: the confidence as a whole percentage. -/
def fmtPct0 (q : ℚ) : String :=
  toString (round (q * 100) : Int) ++ "%"

/-- Stand-in for `cv2.getTextSize(label, FONT_HERSHEY_SIMPLEX, 0.7, 2)`:
a deterministic (width, height) estimate; actual OpenCV font metrics are
outside the program text. -/
def getTextSize (label : String) : Nat × Nat :=
  (10 * label.length, 16)

/-- An image: dimensions plus the BGR value of each pixel.  `cv2.imread`
yields one; all drawing mutates pixels but never the dimensions. -/
structure Image where
  width : Nat
  height : Nat
  data : Nat → Nat → Color

/-- One OpenCV drawing call recorded as data: `cv2.rectangle` (thickness
`-1` = filled) or `cv2.putText`. -/
inductive DrawCmd
  | rect (x1 y1 x2 y2 : Int) (color : Color) (thickness : Int)
  | text (s : String) (x y : Int) (color : Color)
deriving DecidableEq, Repr

/-- Whether pixel (column `i`, row `j`) is touched by a rectangle call:
filled rectangles (`thickness = -1`) cover the whole box, stroked ones a
band of the given thickness around the border, as OpenCV does. -/
def rectCovers (x1 y1 x2 y2 : Int) (thickness : Int) (i j : Int) : Bool :=
  let lo_x := min x1 x2
  let hi_x := max x1 x2
  let lo_y := min y1 y2
  let hi_y := max y1 y2
  if thickness < 0 then
    decide (lo_x ≤ i) && decide (i ≤ hi_x) && decide (lo_y ≤ j) && decide (j ≤ hi_y)
  else
    (decide (lo_x - thickness ≤ i) && decide (i ≤ hi_x + thickness) &&
     decide (lo_y - thickness ≤ j) && decide (j ≤ hi_y + thickness)) &&
    !(decide (lo_x + thickness < i) && decide (i < hi_x - thickness) &&
      decide (lo_y + thickness < j) && decide (j < hi_y - thickness))

/-- Whether pixel (i, j) is touched by a `putText` call: within the text's
bounding box at the anchor (glyph shapes are font internals; the box is
their deterministic envelope). -/
def textCovers (s : String) (x y : Int) (i j : Int) : Bool :=
  let (w, h) := getTextSize s
  decide (x ≤ i) && decide (i ≤ x + (w : Int)) && decide (y - (h : Int) ≤ j) && decide (j ≤ y)

/-- Apply one drawing call to an image: recolour the covered pixels,
keep the dimensions. -/
def applyCmd (img : Image) : DrawCmd → Image
  | .rect x1 y1 x2 y2 c t =>
    { img with data := fun i j => if rectCovers x1 y1 x2 y2 t i j then c else img.data i j }
  | .text s x y c =>
    { img with data := fun i j => if textCovers s x y i j then c else img.data i j }

/-- Apply a sequence of drawing calls in order. -/
def applyCmds (img : Image) (cmds : List DrawCmd) : Image :=
  cmds.foldl applyCmd img

/-- The three OpenCV calls the loop body of `upload` issues for one box:
bounding rectangle (thickness 3), filled label background, label text. -/
def boxCmds (names : Nat → String) (b : Box) : List DrawCmd :=
  let class_name := names b.cls
  let color := colorGet class_name
  let label := class_name ++ " | " ++ fmtPct0 b.conf
  let wh := getTextSize label
  [DrawCmd.rect b.x1 b.y1 b.x2 b.y2 color 3,
   DrawCmd.rect b.x1 (b.y1 - (wh.2 : Int) - 10) (b.x1 + (wh.1 : Int) + 10) b.y1 color (-1),
   DrawCmd.text label (b.x1 + 5) (b.y1 - 5) (255, 255, 255)]

/-- Everything the detection loop of `upload` (lines 362–408) accumulates:
the `detections` dicts, the `defect_classes` and `confidence_scores`
lists, the derived `vehicle_status`, and the drawing calls issued. -/
structure ProcessResult where
  detections : List (String × String)
  defect_classes : List String
  confidence_scores : List String
  vehicle_status : String
  cmds : List DrawCmd
deriving Repr

/-- Lines 362–408 of `app.py`: the lists start empty and
`vehicle_status = "Non-Broken"`; if any box exists the status becomes
`"Broken"` and the loop appends, per box in detector order, its class
name, formatted confidences, drawing calls and detection dict. -/
def processDetections (names : Nat → String) (boxes : List Box) : ProcessResult :=
  if boxes.length > 0 then
    { detections := boxes.map (fun b => (names b.cls, fmtPct2 b.conf))
      defect_classes := boxes.map (fun b => names b.cls)
      confidence_scores := boxes.map (fun b => fmtPct2 b.conf)
      vehicle_status := "Broken"
      cmds := boxes.flatMap (boxCmds names) }
  else
    { detections := []
      defect_classes := []
      confidence_scores := []
      vehicle_status := "Non-Broken"
      cmds := [] }

/-- One row of the `detection_history` table. -/
structure Record where
  id : Nat
  user_id : Nat
  original_image : String
  result_image : String
  vehicle_status : String
  defect_classes : String
  confidence_scores : String
  detection_count : Nat
  timestamp : Nat
deriving DecidableEq, Repr

/-- The `INSERT INTO detection_history` of `upload` (lines 414–429): the
next autoincrement id, the one shared `filename` for both image columns,
the derived status, the joined display strings (`"None"` / `"N/A"` when
empty) and `len(detections)`. -/
def mkRecord (db : List Record) (uid : Nat) (filename : String)
    (pr : ProcessResult) (now : Nat) : Record :=
  { id := db.length + 1
    user_id := uid
    original_image := filename
    result_image := filename
    vehicle_status := pr.vehicle_status
    defect_classes :=
      if pr.defect_classes.isEmpty then "None"
      else String.intercalate ", " pr.defect_classes
    confidence_scores :=
      if pr.confidence_scores.isEmpty then "N/A"
      else String.intercalate ", " pr.confidence_scores
    detection_count := pr.detections.length
    timestamp := now }

/-- Server-side state the upload handler touches: the `detection_history`
table plus the two file folders (`static/uploads`, `static/results`) as
path → image association lists. -/
structure ServerState where
  db : List Record
  uploads : List (String × Image)
  results : List (String × Image)

/-- Outcome of one POST to `/upload`: the two flash-and-rerender early
exits, or success carrying the `result_data` dict. -/
inductive UploadOutcome
  | noFile
  | badType
  | processed (result_image original_image vehicle_status : String)
      (detections : List (String × String)) (detection_count : Nat)
deriving DecidableEq, Repr

/-- One POST request to `/upload`, with the session and oracle inputs:
the uploaded file's name and decoded content, the detector's boxes for it
(`model(...)` output), `model.names`, the `strftime` string and random
suffix used for the filename, and the server time for the DB row. -/
structure UploadReq where
  user_id : Nat
  username : String
  upload_name : String
  image : Image
  boxes : List Box
  names : Nat → String
  stamp : String
  unique_id : String
  now : Nat

/-- `file.filename.rsplit(".", 1)[-1].lower()`: the characters after the
last dot (the whole name when it has no dot), lower-cased. -/
def fileExt (name : String) : String :=
  String.mk (((name.toList.reverse.takeWhile (fun c => c != '.')).reverse).map Char.toLower)

/-- `allowed_extensions = {"jpg", "jpeg", "png"}`. -/
def allowedExtensions : List String := ["jpg", "jpeg", "png"]

/-- The unique filename of line 345:
`f"{session['username']}_{timestamp}_{unique_id}.{file_ext}"`. -/
def mkFilename (req : UploadReq) : String :=
  req.username ++ "_" ++ req.stamp ++ "_" ++ req.unique_id ++ "." ++ fileExt req.upload_name

/-- The POST branch of `upload` (lines 327–442): reject a missing file or
a disallowed extension before touching anything; otherwise save the
upload, run the detector oracle through the processing loop, write the
annotated image, and insert the history row. -/
def uploadPost (st : ServerState) (req : UploadReq) : ServerState × UploadOutcome :=
  if req.upload_name = "" then
    (st, .noFile)
  else if fileExt req.upload_name ∉ allowedExtensions then
    (st, .badType)
  else
    let filename := mkFilename req
    let image_path := "static/uploads/" ++ filename
    let result_path := "static/results/" ++ filename
    let pr := processDetections req.names req.boxes
    let annotated := applyCmds req.image pr.cmds
    let row := mkRecord st.db req.user_id filename pr req.now
    ({ db := st.db ++ [row]
       uploads := st.uploads ++ [(image_path, req.image)]
       results := st.results ++ [(result_path, annotated)] },
     .processed result_path image_path pr.vehicle_status pr.detections pr.detections.length)

/-! ## The ledger queries (`dashboard`, `history`, `profile`) -/

/-- `SELECT COUNT(*) FROM detection_history WHERE user_id = ?`. -/
def totalInspections (db : List Record) (uid : Nat) : Nat :=
  (db.filter (fun r => r.user_id == uid)).length

/-- `... WHERE user_id = ? AND vehicle_status = 'Broken'`. -/
def brokenCount (db : List Record) (uid : Nat) : Nat :=
  (db.filter (fun r => r.user_id == uid && r.vehicle_status == "Broken")).length

/-- `... WHERE user_id = ? AND vehicle_status = 'Non-Broken'`. -/
def nonBrokenCount (db : List Record) (uid : Nat) : Nat :=
  (db.filter (fun r => r.user_id == uid && r.vehicle_status == "Non-Broken")).length

/-- Insert a row into a list already sorted by descending timestamp,
after every row whose timestamp is ≥ its own: the merge step of a stable
descending sort. -/
def insOrdered (r : Record) : List Record → List Record
  | [] => [r]
  | x :: xs => if r.timestamp ≤ x.timestamp then x :: insOrdered r xs else r :: x :: xs

/-- `ORDER BY timestamp DESC` as SQLite executes it on this table: a
stable sort of the ascending-rowid scan, so equal timestamps stay in
rowid order. -/
def sortByTimestampDesc (rows : List Record) : List Record :=
  rows.foldl (fun acc r => insOrdered r acc) []

/-- The `recent_inspections` query of `dashboard` (lines 286–292):
`WHERE user_id = ? ORDER BY timestamp DESC LIMIT 5`. -/
def recentInspections (db : List Record) (uid : Nat) : List Record :=
  (sortByTimestampDesc (db.filter (fun r => r.user_id == uid))).take 5

/-- The `history` query (lines 468–473): same, without the limit. -/
def historyRecords (db : List Record) (uid : Nat) : List Record :=
  sortByTimestampDesc (db.filter (fun r => r.user_id == uid))

/-- The statistics triple `dashboard` renders. -/
structure DashboardStats where
  total_inspections : Nat
  broken_count : Nat
  non_broken_count : Nat
deriving DecidableEq, Repr

/-- The three COUNT queries of `dashboard` (lines 265–283), all read from
the same table state. -/
def dashboardStats (db : List Record) (uid : Nat) : DashboardStats :=
  { total_inspections := totalInspections db uid
    broken_count := brokenCount db uid
    non_broken_count := nonBrokenCount db uid }

/-- Arguments of one ledger insert, for reasoning about create sequences:
the operator, the detector boxes for the image, the class-name map, the
filename and the server time. -/
structure CreateArgs where
  uid : Nat
  boxes : List Box
  names : Nat → String
  filename : String
  now : Nat

/-- One ledger create: the insert of lines 414–429 applied to a table. -/
def ledgerCreate (db : List Record) (a : CreateArgs) : List Record :=
  db ++ [mkRecord db a.uid a.filename (processDetections a.names a.boxes) a.now]

/-- A table built by a sequence of creates from the empty table. -/
def runCreates (reqs : List CreateArgs) : List Record :=
  reqs.foldl ledgerCreate []

/-! ## Concrete inputs used by the witnesses -/

/-- An empty server state: fresh table, empty upload and result folders. -/
def st0 : ServerState := ⟨[], [], []⟩

/-- A class-id → name map like `model.names` for the trained classes. -/
def names0 : Nat → String := fun n =>
  match n with
  | 0 => "dent"
  | 1 => "scratch"
  | 2 => "lamp_broken"
  | 3 => "glass_broken"
  | _ => "tire_flat"

/-- A class map whose id 0 is a name absent from `DEFECT_COLORS`. -/
def namesUnknown : Nat → String := fun _ => "rust"

/-- A 4 × 3 all-black test image. -/
def img0 : Image := ⟨4, 3, fun _ _ => (0, 0, 0)⟩

/-- A PNG upload with one dent finding at 42 % confidence. -/
def reqDent : UploadReq :=
  { user_id := 7, username := "alice", upload_name := "car.png", image := img0,
    boxes := [⟨0, 42/100, 10, 20, 50, 60⟩], names := names0,
    stamp := "20241001_120000", unique_id := "abcd1234", now := 100 }

/-- A JPEG upload whose detector output is structurally malformed:
confidence 2 (outside [0,1]) and an inverted box (x1 > x2, y1 > y2). -/
def reqMalformed : UploadReq :=
  { user_id := 7, username := "alice", upload_name := "car.jpg", image := img0,
    boxes := [⟨0, 2, 50, 60, 10, 20⟩], names := names0,
    stamp := "20241001_120000", unique_id := "abcd1234", now := 100 }

/-- A clean PNG upload: the detector reports no boxes. -/
def reqClean : UploadReq :=
  { user_id := 7, username := "alice", upload_name := "clean.png", image := img0,
    boxes := [], names := names0,
    stamp := "20241001_130000", unique_id := "ef567890", now := 200 }

/-- An upload with a disallowed extension. -/
def reqGif : UploadReq :=
  { user_id := 7, username := "alice", upload_name := "car.gif", image := img0,
    boxes := [], names := names0,
    stamp := "20241001_140000", unique_id := "01234567", now := 300 }

/-- A PNG upload whose single finding has a class name outside the table. -/
def reqRust : UploadReq :=
  { user_id := 7, username := "alice", upload_name := "rusty.png", image := img0,
    boxes := [⟨0, 1/2, 1, 2, 3, 4⟩], names := namesUnknown,
    stamp := "20241001_150000", unique_id := "89abcdef", now := 400 }

/-- The ordering C5 of the specification asserts for `recent`, checked
over adjacent pairs: newest first by timestamp, ties in timestamp broken
by descending id. -/
def claimTieDescId : List Record → Bool
  | [] => true
  | [_] => true
  | a :: b :: rs =>
    (decide (b.timestamp < a.timestamp) ||
      (a.timestamp == b.timestamp && decide (b.id < a.id))) &&
    claimTieDescId (b :: rs)

/-- The order in which `sortByTimestampDesc` actually returns rows:
strictly newer first, and among equal timestamps ascending id
(insertion order, preserved by the stable sort). -/
def recOrder (a b : Record) : Prop :=
  b.timestamp < a.timestamp ∨ (a.timestamp = b.timestamp ∧ a.id < b.id)

/-- Two rows of the same operator inserted within the same second. -/
def tieA : Record := ⟨1, 7, "a.png", "a.png", "Non-Broken", "None", "N/A", 0, 100⟩

/-- A second same-second row, with the larger (later) id. -/
def tieB : Record := ⟨2, 7, "b.png", "b.png", "Broken", "dent", "42.00%", 1, 100⟩

/-! ## Helper lemmas -/

theorem processDetections_detections_length (names : Nat → String) (boxes : List Box) :
    (processDetections names boxes).detections.length = boxes.length := by
  unfold processDetections
  split
  · simp
  · next h => simp at h; simp [h]

theorem mem_insOrdered {r x : Record} {l : List Record} :
    x ∈ insOrdered r l ↔ x = r ∨ x ∈ l := by
  induction l with
  | nil => simp [insOrdered]
  | cons a as ih =>
    simp only [insOrdered]
    split
    · simp only [List.mem_cons, ih]
      tauto
    · simp only [List.mem_cons]

theorem mem_sortAux (x : Record) : ∀ (l acc : List Record),
    x ∈ l.foldl (fun a r => insOrdered r a) acc ↔ x ∈ acc ∨ x ∈ l
  | [], acc => by simp
  | r :: rs, acc => by
    simp only [List.foldl_cons]
    rw [mem_sortAux x rs (insOrdered r acc)]
    simp only [mem_insOrdered, List.mem_cons]
    tauto

theorem mem_sortByTimestampDesc {x : Record} {l : List Record} :
    x ∈ sortByTimestampDesc l ↔ x ∈ l := by
  unfold sortByTimestampDesc
  rw [mem_sortAux]
  simp

theorem length_insOrdered (r : Record) : ∀ l : List Record,
    (insOrdered r l).length = l.length + 1
  | [] => rfl
  | a :: as => by
    simp only [insOrdered]
    split
    · simp [length_insOrdered r as]
    · simp

theorem length_sortAux : ∀ (l acc : List Record),
    (l.foldl (fun a r => insOrdered r a) acc).length = acc.length + l.length
  | [], acc => by simp
  | r :: rs, acc => by
    simp only [List.foldl_cons]
    rw [length_sortAux rs (insOrdered r acc), length_insOrdered]
    simp only [List.length_cons]
    omega

theorem length_sortByTimestampDesc (l : List Record) :
    (sortByTimestampDesc l).length = l.length := by
  unfold sortByTimestampDesc
  rw [length_sortAux]
  simp

/-! ## Claim theorems -/

/-- C1: the derived status is `"Broken"` (Fail) iff the finding set is
non-empty, and `"Non-Broken"` (Pass) iff it is empty — so it depends only
on the number of findings, never on their confidences or classes. -/
theorem C1_status_iff_findings (names : Nat → String) (boxes : List Box) :
    ((processDetections names boxes).vehicle_status = "Broken" ↔ 0 < boxes.length) ∧
    ((processDetections names boxes).vehicle_status = "Non-Broken" ↔ boxes.length = 0) := by
  have hs : (processDetections names boxes).vehicle_status =
      if 0 < boxes.length then "Broken" else "Non-Broken" := by
    by_cases h : 0 < boxes.length <;> simp [processDetections, h]
  rw [hs]
  by_cases h : 0 < boxes.length
  · rw [if_pos h]
    exact ⟨⟨fun _ => h, fun _ => rfl⟩,
      ⟨fun hc => absurd hc (by decide), fun h0 => absurd h (by omega)⟩⟩
  · rw [if_neg h]
    exact ⟨⟨fun hc => absurd hc (by decide), fun hp => absurd hp h⟩,
      ⟨fun _ => by omega, fun _ => rfl⟩⟩

/-- C2: a successful upload appends exactly one row, and its stored
`detection_count` equals the number of boxes the detector returned
(zero when there are none). -/
theorem C2_stored_count (st : ServerState) (req : UploadReq)
    (h1 : req.upload_name ≠ "")
    (h2 : fileExt req.upload_name ∈ allowedExtensions) :
    ∃ r : Record, (uploadPost st req).1.db = st.db ++ [r] ∧
      r.detection_count = req.boxes.length := by
  refine ⟨mkRecord st.db req.user_id (mkFilename req)
    (processDetections req.names req.boxes) req.now, ?_, ?_⟩
  · simp [uploadPost, h1, h2]
  · simp [mkRecord, processDetections_detections_length]

theorem C2_stored_count_witness :
    ∃ r : Record, (uploadPost st0 reqDent).1.db = st0.db ++ [r] ∧
      r.detection_count = reqDent.boxes.length :=
  C2_stored_count st0 reqDent (by decide) (by decide)

/-- C9: an upload whose extension is not jpg/jpeg/png is rejected before
detection, annotation or persistence: the server state (table and both
image folders) is returned unchanged with the bad-type outcome. -/
theorem C9_bad_extension_rejected (st : ServerState) (req : UploadReq)
    (h1 : req.upload_name ≠ "")
    (h2 : fileExt req.upload_name ∉ allowedExtensions) :
    uploadPost st req = (st, UploadOutcome.badType) := by
  simp [uploadPost, h1, h2]

theorem C9_bad_extension_rejected_witness :
    uploadPost st0 reqGif = (st0, UploadOutcome.badType) :=
  C9_bad_extension_rejected st0 reqGif (by decide) (by decide)

/-- C10: the row a successful upload inserts stores the same filename in
both image columns — the references alone cannot distinguish the upload
from the annotated output — while the two files themselves are written
under the distinct `static/uploads/` and `static/results/` folders. -/
theorem C10_shared_filename (st : ServerState) (req : UploadReq)
    (h1 : req.upload_name ≠ "")
    (h2 : fileExt req.upload_name ∈ allowedExtensions) :
    ∃ r : Record, (uploadPost st req).1.db = st.db ++ [r] ∧
      r.original_image = mkFilename req ∧
      r.result_image = mkFilename req ∧
      (uploadPost st req).1.uploads =
        st.uploads ++ [("static/uploads/" ++ mkFilename req, req.image)] ∧
      (uploadPost st req).1.results =
        st.results ++ [("static/results/" ++ mkFilename req,
          applyCmds req.image (processDetections req.names req.boxes).cmds)] := by
  refine ⟨mkRecord st.db req.user_id (mkFilename req)
    (processDetections req.names req.boxes) req.now, ?_, rfl, rfl, ?_, ?_⟩ <;>
    simp [uploadPost, h1, h2]

theorem C10_shared_filename_witness :
    ∃ r : Record, (uploadPost st0 reqDent).1.db = st0.db ++ [r] ∧
      r.original_image = mkFilename reqDent ∧
      r.result_image = mkFilename reqDent ∧
      (uploadPost st0 reqDent).1.uploads =
        st0.uploads ++ [("static/uploads/" ++ mkFilename reqDent, reqDent.image)] ∧
      (uploadPost st0 reqDent).1.results =
        st0.results ++ [("static/results/" ++ mkFilename reqDent,
          applyCmds reqDent.image (processDetections reqDent.names reqDent.boxes).cmds)] :=
  C10_shared_filename st0 reqDent (by decide) (by decide)

/-- C6 counterexample: on a detector output whose single finding has
confidence 2 (outside [0,1]) and an inverted bounding box, the code does
not fail — it creates an inspection record and reports success. -/
theorem C6_counterexample :
    (uploadPost st0 reqMalformed).1.db.length = 1 ∧
    (uploadPost st0 reqMalformed).2 ≠ UploadOutcome.noFile ∧
    (uploadPost st0 reqMalformed).2 ≠ UploadOutcome.badType := by
  refine ⟨by decide, by decide, by decide⟩

/-- C6 amended: the code performs no structural validation of detector
output.  Whatever the boxes contain — non-finite or out-of-range
confidences, degenerate or inverted boxes — a well-formed upload is
processed to completion and exactly one record is created. -/
theorem C6_no_validation (st : ServerState) (req : UploadReq)
    (h1 : req.upload_name ≠ "")
    (h2 : fileExt req.upload_name ∈ allowedExtensions) :
    (uploadPost st req).1.db.length = st.db.length + 1 ∧
    (uploadPost st req).2 ≠ UploadOutcome.noFile ∧
    (uploadPost st req).2 ≠ UploadOutcome.badType := by
  refine ⟨?_, ?_, ?_⟩ <;> simp [uploadPost, h1, h2]

theorem C6_no_validation_witness :
    (uploadPost st0 reqRust).1.db.length = st0.db.length + 1 ∧
    (uploadPost st0 reqRust).2 ≠ UploadOutcome.noFile ∧
    (uploadPost st0 reqRust).2 ≠ UploadOutcome.badType :=
  C6_no_validation st0 reqRust (by decide) (by decide)

/-- C7: a finding whose class name is absent from `DEFECT_COLORS` gets the
fixed fallback colour (0, 255, 0): its bounding rectangle is still drawn
with that colour, and the finding is still recorded in `detections`
alongside every other box — no abort path exists, and the output is a
pure function of the input. -/
theorem C7_unknown_class_fallback (names : Nat → String) (b : Box)
    (h : DEFECT_COLORS.lookup (names b.cls) = none) :
    colorGet (names b.cls) = (0, 255, 0) ∧
    (boxCmds names b).head? = some (DrawCmd.rect b.x1 b.y1 b.x2 b.y2 (0, 255, 0) 3) ∧
    ∀ others : List Box,
      (processDetections names (b :: others)).detections =
        (b :: others).map (fun x => (names x.cls, fmtPct2 x.conf)) := by
  refine ⟨?_, ?_, ?_⟩
  · simp [colorGet, h]
  · simp [boxCmds, colorGet, h]
  · intro others
    rw [processDetections, if_pos (by simp)]

theorem C7_unknown_class_fallback_witness :
    colorGet (namesUnknown 0) = (0, 255, 0) ∧
    (boxCmds namesUnknown ⟨0, 1/2, 1, 2, 3, 4⟩).head? =
      some (DrawCmd.rect 1 2 3 4 (0, 255, 0) 3) ∧
    ∀ others : List Box,
      (processDetections namesUnknown (⟨0, 1/2, 1, 2, 3, 4⟩ :: others)).detections =
        (⟨0, 1/2, 1, 2, 3, 4⟩ :: others).map (fun x => (namesUnknown x.cls, fmtPct2 x.conf)) :=
  C7_unknown_class_fallback namesUnknown ⟨0, 1/2, 1, 2, 3, 4⟩ (by decide)

/-- C8: a clean upload skips nothing — the annotated image is still
written to the results folder and, since the empty finding set issues no
drawing call, it is the source image itself (same dimensions, same
pixels); the inserted row has status `"Non-Broken"` and count 0. -/
theorem C8_empty_findings (st : ServerState) (req : UploadReq)
    (h1 : req.upload_name ≠ "")
    (h2 : fileExt req.upload_name ∈ allowedExtensions)
    (h3 : req.boxes = []) :
    (uploadPost st req).1.results =
      st.results ++ [("static/results/" ++ mkFilename req, req.image)] ∧
    (uploadPost st req).1.db = st.db ++
      [{ id := st.db.length + 1, user_id := req.user_id,
         original_image := mkFilename req, result_image := mkFilename req,
         vehicle_status := "Non-Broken", defect_classes := "None",
         confidence_scores := "N/A", detection_count := 0, timestamp := req.now }] := by
  constructor <;>
    simp [uploadPost, h1, h2, h3, processDetections, applyCmds, mkRecord]

theorem C8_empty_findings_witness :
    (uploadPost st0 reqClean).1.results =
      st0.results ++ [("static/results/" ++ mkFilename reqClean, reqClean.image)] ∧
    (uploadPost st0 reqClean).1.db = st0.db ++
      [{ id := st0.db.length + 1, user_id := reqClean.user_id,
         original_image := mkFilename reqClean, result_image := mkFilename reqClean,
         vehicle_status := "Non-Broken", defect_classes := "None",
         confidence_scores := "N/A", detection_count := 0, timestamp := reqClean.now }] :=
  C8_empty_findings st0 reqClean (by decide) (by decide) rfl

/-! ## Ordering and counting lemmas for the ledger queries -/

theorem pairwise_insOrdered {r : Record} {l : List Record}
    (hl : l.Pairwise recOrder) (hid : ∀ x ∈ l, x.id < r.id) :
    (insOrdered r l).Pairwise recOrder := by
  induction l with
  | nil => simp [insOrdered]
  | cons a as ih =>
    rw [List.pairwise_cons] at hl
    simp only [insOrdered]
    split
    · next hts =>
      rw [List.pairwise_cons]
      refine ⟨?_, ih hl.2 (fun x hx => hid x (List.mem_cons_of_mem a hx))⟩
      intro y hy
      rcases mem_insOrdered.mp hy with rfl | hy2
      · unfold recOrder
        rcases lt_or_eq_of_le hts with hlt | heq
        · exact Or.inl hlt
        · exact Or.inr ⟨heq.symm, hid a (List.mem_cons_self a as)⟩
      · exact hl.1 y hy2
    · next hts =>
      have hlt : a.timestamp < r.timestamp := Nat.lt_of_not_le hts
      rw [List.pairwise_cons]
      refine ⟨?_, List.pairwise_cons.mpr ⟨hl.1, hl.2⟩⟩
      intro y hy
      unfold recOrder
      rcases List.mem_cons.mp hy with rfl | hy2
      · exact Or.inl hlt
      · have h2 := hl.1 y hy2
        unfold recOrder at h2
        rcases h2 with h2 | h2
        · exact Or.inl (lt_trans h2 hlt)
        · exact Or.inl (by omega)

theorem pairwise_sortAux : ∀ (l acc : List Record),
    acc.Pairwise recOrder →
    (∀ r ∈ l, ∀ x ∈ acc, x.id < r.id) →
    l.Pairwise (fun a b => a.id < b.id) →
    (l.foldl (fun a r => insOrdered r a) acc).Pairwise recOrder
  | [], acc, hacc, _, _ => by simpa using hacc
  | r :: rs, acc, hacc, hcross, hl => by
    simp only [List.foldl_cons]
    rw [List.pairwise_cons] at hl
    apply pairwise_sortAux rs (insOrdered r acc)
    · exact pairwise_insOrdered hacc (fun x hx => hcross r (List.mem_cons_self r rs) x hx)
    · intro q hq x hx
      rcases mem_insOrdered.mp hx with rfl | hx2
      · exact hl.1 q hq
      · exact hcross q (List.mem_cons_of_mem r hq) x hx2
    · exact hl.2

theorem pairwise_sortByTimestampDesc {l : List Record}
    (h : l.Pairwise (fun a b => a.id < b.id)) :
    (sortByTimestampDesc l).Pairwise recOrder :=
  pairwise_sortAux l [] List.Pairwise.nil (by simp) h

theorem filter_user_idem (db : List Record) (uid : Nat) :
    (db.filter (fun r => r.user_id == uid)).filter (fun r => r.user_id == uid) =
      db.filter (fun r => r.user_id == uid) := by
  induction db with
  | nil => rfl
  | cons a as ih =>
    by_cases h : (a.user_id == uid) = true <;> simp [List.filter_cons, h, ih]

theorem filter_user_dup (db : List Record) (uid : Nat) (p : Record → Bool) :
    (db.filter (fun r => r.user_id == uid)).filter (fun r => r.user_id == uid && p r) =
      db.filter (fun r => r.user_id == uid && p r) := by
  induction db with
  | nil => rfl
  | cons a as ih =>
    by_cases h : (a.user_id == uid) = true
    · by_cases hp : p a = true <;> simp [List.filter_cons, h, hp, ih]
    · simp [List.filter_cons, h, ih]

theorem status_by_length (names : Nat → String) (boxes : List Box) :
    (processDetections names boxes).vehicle_status =
      if 0 < boxes.length then "Broken" else "Non-Broken" := by
  by_cases h : 0 < boxes.length <;> simp [processDetections, h]

theorem beq_nb_b : (("Non-Broken" : String) == "Broken") = false := by decide

theorem beq_b_b : (("Broken" : String) == "Broken") = true := by decide

theorem beq_nb_nb : (("Non-Broken" : String) == "Non-Broken") = true := by decide

theorem beq_b_nb : (("Broken" : String) == "Non-Broken") = false := by decide

theorem filter_foldl_create (p : Record → Bool) (q : CreateArgs → Bool)
    (hpq : ∀ (db : List Record) (a : CreateArgs),
      p (mkRecord db a.uid a.filename (processDetections a.names a.boxes) a.now) = q a) :
    ∀ (reqs : List CreateArgs) (db : List Record),
      ((reqs.foldl ledgerCreate db).filter p).length =
        (db.filter p).length + (reqs.filter q).length
  | [], db => by simp
  | r :: rs, db => by
    simp only [List.foldl_cons, List.filter_cons]
    rw [filter_foldl_create p q hpq rs (ledgerCreate db r)]
    have hstep : ((ledgerCreate db r).filter p).length =
        (db.filter p).length + (if q r then 1 else 0) := by
      have hrow := hpq db r
      simp only [ledgerCreate, List.filter_append, List.length_append,
        List.filter_cons, List.filter_nil, hrow]
      split <;> simp
    rw [hstep]
    split <;> simp_arith

theorem filter_split_reqs (reqs : List CreateArgs) (uid : Nat) :
    (reqs.filter (fun a => a.uid == uid)).length =
      (reqs.filter (fun a => a.uid == uid && decide (0 < a.boxes.length))).length +
      (reqs.filter (fun a => a.uid == uid && decide (a.boxes.length = 0))).length := by
  induction reqs with
  | nil => rfl
  | cons a as ih =>
    simp only [List.filter_cons]
    by_cases hu : (a.uid == uid) = true
    · rcases Nat.eq_zero_or_pos a.boxes.length with h | h
      · simp only [hu, h, Bool.true_and]
        simp [ih]
        omega
      · have hne : a.boxes.length ≠ 0 := by omega
        simp only [hu, Bool.true_and]
        simp [h, hne, ih]
        omega
    · simp [hu, ih]

/-- C3: after any sequence of creates, the dashboard aggregates satisfy
`total = broken + non_broken`; each count is exactly the frequency of the
corresponding status among that operator's created records (a record is
`"Broken"` precisely when its create had a non-empty finding set); and the
total is computed from the very record set the full history listing
returns. -/
theorem C3_aggregate_consistent (reqs : List CreateArgs) (uid : Nat) :
    totalInspections (runCreates reqs) uid =
      brokenCount (runCreates reqs) uid + nonBrokenCount (runCreates reqs) uid ∧
    brokenCount (runCreates reqs) uid =
      (reqs.filter (fun a => a.uid == uid && decide (0 < a.boxes.length))).length ∧
    nonBrokenCount (runCreates reqs) uid =
      (reqs.filter (fun a => a.uid == uid && decide (a.boxes.length = 0))).length ∧
    totalInspections (runCreates reqs) uid =
      (reqs.filter (fun a => a.uid == uid)).length ∧
    totalInspections (runCreates reqs) uid =
      (historyRecords (runCreates reqs) uid).length := by
  have htot := filter_foldl_create (fun r => r.user_id == uid)
    (fun a => a.uid == uid)
    (by intro db a; simp [mkRecord]) reqs []
  have hbro := filter_foldl_create
    (fun r => r.user_id == uid && r.vehicle_status == "Broken")
    (fun a => a.uid == uid && decide (0 < a.boxes.length))
    (by
      intro db a
      rcases Nat.eq_zero_or_pos a.boxes.length with h | h
      · have hne : ¬(0 < a.boxes.length) := by omega
        simp [mkRecord, status_by_length, hne, beq_nb_b]
      · simp [mkRecord, status_by_length, h, beq_b_b]) reqs []
  have hnon := filter_foldl_create
    (fun r => r.user_id == uid && r.vehicle_status == "Non-Broken")
    (fun a => a.uid == uid && decide (a.boxes.length = 0))
    (by
      intro db a
      rcases Nat.eq_zero_or_pos a.boxes.length with h | h
      · have hne : ¬(0 < a.boxes.length) := by omega
        simp [mkRecord, status_by_length, hne, beq_nb_nb, h]
      · have hne : a.boxes.length ≠ 0 := by omega
        simp [mkRecord, status_by_length, h, beq_b_nb, hne]) reqs []
  simp only [List.filter_nil, List.length_nil, Nat.zero_add] at htot hbro hnon
  have e1 : totalInspections (runCreates reqs) uid =
      (reqs.filter (fun a => a.uid == uid)).length := by
    simpa [totalInspections, runCreates] using htot
  have e2 : brokenCount (runCreates reqs) uid =
      (reqs.filter (fun a => a.uid == uid && decide (0 < a.boxes.length))).length := by
    simpa [brokenCount, runCreates] using hbro
  have e3 : nonBrokenCount (runCreates reqs) uid =
      (reqs.filter (fun a => a.uid == uid && decide (a.boxes.length = 0))).length := by
    simpa [nonBrokenCount, runCreates] using hnon
  refine ⟨?_, e2, e3, e1, ?_⟩
  · rw [e1, e2, e3, filter_split_reqs]
  · simp [historyRecords, length_sortByTimestampDesc, totalInspections]

/-- C4: every row the recent and history queries return belongs to the
queried operator, and the dashboard aggregates are computed from that
operator's rows alone — rows of other operators never contribute. -/
theorem C4_operator_scoped (db : List Record) (uid : Nat) :
    (∀ r ∈ recentInspections db uid, r.user_id = uid) ∧
    (∀ r ∈ historyRecords db uid, r.user_id = uid) ∧
    dashboardStats (db.filter (fun r => r.user_id == uid)) uid = dashboardStats db uid := by
  refine ⟨?_, ?_, ?_⟩
  · intro r hr
    have hr2 : r ∈ sortByTimestampDesc (db.filter (fun x => x.user_id == uid)) :=
      List.take_subset _ _ hr
    have hr3 := List.of_mem_filter (mem_sortByTimestampDesc.mp hr2)
    simpa using hr3
  · intro r hr
    have hr3 := List.of_mem_filter (mem_sortByTimestampDesc.mp hr)
    simpa using hr3
  · simp only [dashboardStats, totalInspections, brokenCount, nonBrokenCount,
      filter_user_idem, filter_user_dup]

theorem C4_operator_scoped_witness : tieA.user_id = 7 :=
  (C4_operator_scoped [tieA, tieB] 7).1 tieA (by decide)

/-- C5 counterexample: two same-operator rows share a timestamp (created
within the same second); `recent` returns them in ascending id order
[1, 2], so the output violates the descending-id tie-break the claim
asserts. -/
theorem C5_counterexample :
    (recentInspections [tieA, tieB] 7).map (fun r => r.id) = [1, 2] ∧
    claimTieDescId (recentInspections [tieA, tieB] 7) = false := by
  refine ⟨by decide, by decide⟩

/-- C5 amended: for a table whose ids ascend in insertion order (as
AUTOINCREMENT guarantees), `recent` returns the operator's rows newest
first by timestamp with ties in ascending id (insertion) order — the
stable sort keeps scan order, it does not reverse it — truncated to 5. -/
theorem C5_recent_order (db : List Record) (uid : Nat)
    (h : db.Pairwise (fun a b => a.id < b.id)) :
    (recentInspections db uid).Pairwise recOrder ∧
    (recentInspections db uid).length ≤ 5 := by
  constructor
  · exact List.Pairwise.sublist (List.take_sublist 5 _)
      (pairwise_sortByTimestampDesc (h.filter _))
  · exact List.length_take_le 5 (sortByTimestampDesc (db.filter (fun r => r.user_id == uid)))

theorem C5_recent_order_witness :
    (recentInspections [tieA, tieB] 7).Pairwise recOrder ∧
    (recentInspections [tieA, tieB] 7).length ≤ 5 :=
  C5_recent_order [tieA, tieB] 7 (by decide)
